import Mathlib

/-!
Verification of `src/data_intake/player_data.py`: two fetch-transform-write
pipelines, `get_rookies` and `get_team_offensive_stats`, against the
natural-language specification.

The embedding models the JSON values the Sleeper API returns, Python
dictionary lookup (`dict.get`, returning `None` for absent keys), Python
equality against the integer literal `0` (which also holds for the float
`0.0` and the boolean `False`, since `bool` is a subclass of `int`),
membership in the set `{"QB", "RB", "WR", "TE"}`, the two list
comprehensions, and the surrounding effectful pipeline (HTTP status check,
file write, stdout message) as an explicit function from a response and a
file-system state to a run result.  File contents are modelled as the list
of rows handed to `DataFrame.to_csv`; the byte-level CSV encoding is not
needed by any property studied here.
-/

namespace PlayerData

/-- A JSON value as produced by Python's `json` parser: `None`, `bool`,
`int`, `float` (modelled exactly as a rational, which is faithful for the
equality tests the code performs), `str`, or an object (a key-value list;
JSON objects delivered by the API have pairwise distinct keys). -/
inductive JsonVal where
  | null : JsonVal
  | bool (b : Bool) : JsonVal
  | int (n : Int) : JsonVal
  | float (q : ℚ) : JsonVal
  | str (s : String) : JsonVal
  | obj (fields : List (String × JsonVal)) : JsonVal
deriving Repr

/-- `isinstance(v, dict)`. -/
def JsonVal.isObj : JsonVal → Bool
  | .obj _ => true
  | _ => false

/-- The fields of an object value (only applied under an `isObj` guard,
mirroring the `isinstance(stats, dict)` filter). -/
def JsonVal.objFields : JsonVal → List (String × JsonVal)
  | .obj fields => fields
  | _ => []

/-- Python `d.get(k)`: the value stored at `k`, or `None` when absent. -/
def jget (fields : List (String × JsonVal)) (k : String) : JsonVal :=
  match fields.find? (fun e => e.1 == k) with
  | some e => e.2
  | none => .null

/-- Python `v == 0` for a JSON value `v`.  True exactly for the integer
`0`, the float `0.0` and the boolean `False` (`bool` is a subclass of
`int` in Python, so `False == 0` holds); `None`, strings and dicts never
compare equal to `0`. -/
def pyEqZero : JsonVal → Bool
  | .int n => n == 0
  | .float q => q == 0
  | .bool b => b == false
  | _ => false

/-- Python `v in {"QB", "RB", "WR", "TE"}`: set membership is decided by
`==`, so only the four string values qualify. -/
def posValid : JsonVal → Bool
  | .str s => s == "QB" || s == "RB" || s == "WR" || s == "TE"
  | _ => false

/-- The body of the players endpoint response: a mapping from player-id
strings to player attribute mappings (the rookie path accesses every entry
with `.get`, so entries are objects). -/
abbrev PlayerBody : Type := List (String × List (String × JsonVal))

/-- The body of the team-stats endpoint response: a mapping from team
abbreviations to arbitrary JSON values (a stats object, or a non-object
sentinel that the code filters out). -/
abbrev TeamBody : Type := List (String × JsonVal)

/-- The comprehension filter of `get_rookies`:
`player.get("years_exp") == 0 and player.get("position") in valid_positions`. -/
def rookiePred (player : List (String × JsonVal)) : Bool :=
  pyEqZero (jget player "years_exp") && posValid (jget player "position")

/-- One row of the rookie output (`player_id` is the mapping key, a
string; every other column stores the raw `.get` result and is therefore
nullable). -/
structure RookieRecord where
  player_id : String
  full_name : JsonVal
  position : JsonVal
  team : JsonVal
  college : JsonVal
  years_exp : JsonVal
deriving Repr

/-- The dict literal built for a surviving player entry. -/
def projRookie (pid : String) (player : List (String × JsonVal)) : RookieRecord :=
  { player_id := pid
    full_name := jget player "full_name"
    position := jget player "position"
    team := jget player "team"
    college := jget player "college"
    years_exp := jget player "years_exp" }

/-- The `rookies` list comprehension of `get_rookies`: keep the entries
satisfying `rookiePred`, in source order, and project each to a
`RookieRecord`. -/
def rookieRecords (data : PlayerBody) : List RookieRecord :=
  (data.filter (fun e => rookiePred e.2)).map (fun e => projRookie e.1 e.2)

/-- One row of the team offensive stats output. -/
structure TeamRecord where
  team : String
  year : Int
  offense_rank : JsonVal
  pass_yards_rank : JsonVal
  pass_td_rank : JsonVal
  rush_yards_rank : JsonVal
  rush_td_rank : JsonVal
  rec_yards_rank : JsonVal
  rec_td_rank : JsonVal
  team_td : JsonVal
  redzone_rank : JsonVal
  redzone_pct : JsonVal
deriving Repr

/-- The dict literal built for a mapping-valued `(team, stats)` entry. -/
def projTeam (year : Int) (team : String) (stats : List (String × JsonVal)) : TeamRecord :=
  { team := team
    year := year
    offense_rank := jget stats "offense_rank"
    pass_yards_rank := jget stats "pass_yds_rank"
    pass_td_rank := jget stats "pass_td_rank"
    rush_yards_rank := jget stats "rush_yds_rank"
    rush_td_rank := jget stats "rush_td_rank"
    rec_yards_rank := jget stats "rec_yds_rank"
    rec_td_rank := jget stats "rec_td_rank"
    team_td := jget stats "td"
    redzone_rank := jget stats "redzone_rank"
    redzone_pct := jget stats "redzone_pct" }

/-- The `team_stats` list comprehension of `get_team_offensive_stats`:
keep the entries whose value is a dict (`isinstance(stats, dict)`), in
source order, and project each to a `TeamRecord`. -/
def teamRecords (year : Int) (data : TeamBody) : List TeamRecord :=
  (data.filter (fun e => e.2.isObj)).map (fun e => projTeam year e.1 e.2.objFields)

/-- An HTTP response: a status code and a parsed JSON body (the code calls
`response.json()` only after the status check succeeds, so carrying the
parsed body is faithful for every property below). -/
structure Response (α : Type) where
  status : Nat
  body : α

/-- The exception raised by `response.raise_for_status()`. -/
structure HttpError where
  status : Nat
deriving Repr, DecidableEq

/-- `requests.Response.raise_for_status` raises exactly when
`400 <= status_code < 600` (client or server error). -/
def isErrorStatus (s : Nat) : Bool :=
  400 ≤ s && s < 600

/-- The contents of an output file, as the list of rows handed to
`DataFrame.to_csv`. -/
inductive FileData where
  | rookies (rows : List RookieRecord) : FileData
  | teams (rows : List TeamRecord) : FileData
deriving Repr

/-- The file-system state: an association of paths to file contents. -/
abbrev FS : Type := List (String × FileData)

/-- Writing a file: the path now maps to the new contents, silently
overwriting any previous file at that path. -/
def fsWrite (fs : FS) (p : String) (d : FileData) : FS :=
  (p, d) :: fs.filter (fun e => e.1 != p)

/-- Reading back a file, if present. -/
def fsLookup (fs : FS) (p : String) : Option FileData :=
  (fs.find? (fun e => e.1 == p)).map (fun e => e.2)

/-- `os.path.join` on the two-component paths the module uses. -/
def pathJoin (a b : String) : String := a ++ "/" ++ b

/-- `DATA_DIR = os.path.join("data", "raw")`. -/
def DATA_DIR : String := pathJoin "data" "raw"

/-- The URL requested by `get_rookies` (a plain string literal: the year
argument does not occur in it). -/
def playersUrl : String := "https://api.sleeper.app/v1/players/nfl"

/-- The URL requested by `get_team_offensive_stats` (an f-string, so here
the year IS interpolated). -/
def statsUrl (year : Int) : String :=
  "https://api.sleeper.app/v1/stats/nfl/regular/" ++ toString year

/-- The rookie output path,
`os.path.join(DATA_DIR, "rookies_\x7byear\x7d.csv")`.  The filename is a
plain string literal, not an f-string, so the placeholder is NOT
substituted and the same path results for every year. -/
def rookiesPath : String := pathJoin DATA_DIR "rookies_\x7byear\x7d.csv"

/-- The team-stats output path, with the year interpolated. -/
def teamStatsPath (year : Int) : String :=
  pathJoin DATA_DIR ("sleeper_team_stats_" ++ toString year ++ ".csv")

/-- The observable outcome of one pipeline invocation: the issued request
URL, the returned value or raised exception, the resulting file-system
state, and the lines printed to stdout. -/
structure RunResult (α : Type) where
  request : String
  result : Except HttpError α
  fs : FS
  stdout : List String

/-- `get_rookies(year)` run against a given response and file-system
state: issue the GET, raise on an error status (leaving the file system
untouched), otherwise filter and project the body, write the rows to the
(non-interpolated) rookie path, print the count message, and return the
rows. -/
def get_rookies_run (year : Int) (resp : Response PlayerBody) (fs : FS) :
    RunResult (List RookieRecord) :=
  if isErrorStatus resp.status then
    { request := playersUrl
      result := .error { status := resp.status }
      fs := fs
      stdout := [] }
  else
    let rookies := rookieRecords resp.body
    { request := playersUrl
      result := .ok rookies
      fs := fsWrite fs rookiesPath (.rookies rookies)
      stdout := ["Saved " ++ toString rookies.length ++
        " rookies (QB, RB, WR, TE) to rookies_" ++ toString year ++ ".csv"] }

/-- `get_team_offensive_stats(year)` run against a given response and
file-system state. -/
def get_team_offensive_stats_run (year : Int) (resp : Response TeamBody) (fs : FS) :
    RunResult (List TeamRecord) :=
  if isErrorStatus resp.status then
    { request := statsUrl year
      result := .error { status := resp.status }
      fs := fs
      stdout := [] }
  else
    let stats := teamRecords year resp.body
    { request := statsUrl year
      result := .ok stats
      fs := fsWrite fs (teamStatsPath year) (.teams stats)
      stdout := ["Saved team offensive stats for " ++ toString year] }

/-! ### Helper lemmas -/

theorem jget_of_not_mem (fields : List (String × JsonVal)) (k : String)
    (h : k ∉ fields.map Prod.fst) : jget fields k = JsonVal.null := by
  induction fields with
  | nil => rfl
  | cons e rest ih =>
      have h1 : k ≠ e.1 := fun hk => h (by simp [hk])
      have h2 : k ∉ rest.map Prod.fst := fun hk => h (by simp [hk])
      have hb : (e.1 == k) = false := beq_eq_false_iff_ne.mpr (fun hh => h1 hh.symm)
      have : jget (e :: rest) k = jget rest k := by
        simp [jget, List.find?_cons, hb]
      rw [this]
      exact ih h2

theorem jget_total (fields : List (String × JsonVal)) (k : String) :
    jget fields k = JsonVal.null ∨ (k, jget fields k) ∈ fields := by
  induction fields with
  | nil => exact Or.inl rfl
  | cons e rest ih =>
      by_cases hkey : e.1 = k
      · have hb : (e.1 == k) = true := beq_iff_eq.mpr hkey
        have hv : jget (e :: rest) k = e.2 := by
          simp [jget, List.find?_cons, hb]
        refine Or.inr ?_
        rw [hv]
        subst hkey
        exact List.mem_cons_self _ _
      · have hb : (e.1 == k) = false := beq_eq_false_iff_ne.mpr hkey
        have hv : jget (e :: rest) k = jget rest k := by
          simp [jget, List.find?_cons, hb]
        rw [hv]
        rcases ih with h | h
        · exact Or.inl h
        · exact Or.inr (List.mem_cons_of_mem e h)

theorem pyEqZero_cases (v : JsonVal) (h : pyEqZero v = true) :
    v = JsonVal.int 0 ∨ v = JsonVal.float 0 ∨ v = JsonVal.bool false := by
  cases v with
  | int n =>
      have : n = 0 := by simpa [pyEqZero] using h
      exact Or.inl (by rw [this])
  | float q =>
      have : q = 0 := by simpa [pyEqZero] using h
      exact Or.inr (Or.inl (by rw [this]))
  | bool b =>
      have : b = false := by simpa [pyEqZero] using h
      exact Or.inr (Or.inr (by rw [this]))
  | null => simp [pyEqZero] at h
  | str s => simp [pyEqZero] at h
  | obj fields => simp [pyEqZero] at h

theorem of_mem_rookieRecords {data : PlayerBody} {r : RookieRecord}
    (h : r ∈ rookieRecords data) :
    ∃ e, e ∈ data ∧ rookiePred e.2 = true ∧ r = projRookie e.1 e.2 := by
  rcases List.mem_map.mp h with ⟨e, he, hr⟩
  rcases List.mem_filter.mp he with ⟨hd, hp⟩
  exact ⟨e, hd, hp, hr.symm⟩

theorem of_mem_teamRecords {year : Int} {data : TeamBody} {r : TeamRecord}
    (h : r ∈ teamRecords year data) :
    ∃ e, e ∈ data ∧ e.2.isObj = true ∧ r = projTeam year e.1 e.2.objFields := by
  rcases List.mem_map.mp h with ⟨e, he, hr⟩
  rcases List.mem_filter.mp he with ⟨hd, hp⟩
  exact ⟨e, hd, hp, hr.symm⟩

theorem rookieRecords_map_pid (data : PlayerBody) :
    (rookieRecords data).map RookieRecord.player_id =
      (data.filter (fun e => rookiePred e.2)).map Prod.fst := by
  unfold rookieRecords
  rw [List.map_map]
  rfl

theorem teamRecords_map_team (year : Int) (data : TeamBody) :
    (teamRecords year data).map TeamRecord.team =
      (data.filter (fun e => e.2.isObj)).map Prod.fst := by
  unfold teamRecords
  rw [List.map_map]
  rfl

theorem fsLookup_fsWrite (fs : FS) (p : String) (d : FileData) :
    fsLookup (fsWrite fs p d) p = some d := by
  simp [fsLookup, fsWrite, List.find?_cons]

theorem isErrorStatus_true {s : Nat} (h1 : 400 ≤ s) (h2 : s < 600) :
    isErrorStatus s = true := by
  simp [isErrorStatus]
  exact ⟨h1, h2⟩

/-! ### Claims -/

/-- C1: every record in the collection returned by `get_rookies` — which
is exactly the collection persisted to the output file on a successful
run — satisfies the comprehension's own test: `years_exp == 0` (Python
equality) and `position in {"QB", "RB", "WR", "TE"}`, for every input
player mapping of mixed eligibility. -/
theorem get_rookies_invariant :
    (∀ (data : PlayerBody) (r : RookieRecord), r ∈ rookieRecords data →
      pyEqZero r.years_exp = true ∧ posValid r.position = true)
    ∧ (∀ (year : Int) (resp : Response PlayerBody) (fs : FS),
        isErrorStatus resp.status = false →
        fsLookup (get_rookies_run year resp fs).fs rookiesPath =
          some (FileData.rookies (rookieRecords resp.body))) := by
  constructor
  · intro data r h
    rcases of_mem_rookieRecords h with ⟨e, _, hp, rfl⟩
    exact Bool.and_eq_true _ _ |>.mp hp
  · intro year resp fs h
    simp only [get_rookies_run, h, Bool.false_eq_true, if_false, ite_false]
    exact fsLookup_fsWrite _ _ _

/-- Witness for C1 at a concrete mixed-eligibility input (one eligible
rookie, one three-year veteran) and a concrete successful run. -/
theorem get_rookies_invariant_witness :
    (pyEqZero (projRookie "p1" [("years_exp", JsonVal.int 0), ("position", JsonVal.str "QB")]).years_exp = true ∧
      posValid (projRookie "p1" [("years_exp", JsonVal.int 0), ("position", JsonVal.str "QB")]).position = true)
    ∧ fsLookup (get_rookies_run 2024
        { status := 200,
          body := [("p1", [("years_exp", JsonVal.int 0), ("position", JsonVal.str "QB")]),
                   ("p2", [("years_exp", JsonVal.int 3), ("position", JsonVal.str "QB")])] }
        []).fs rookiesPath =
        some (FileData.rookies (rookieRecords
          [("p1", [("years_exp", JsonVal.int 0), ("position", JsonVal.str "QB")]),
           ("p2", [("years_exp", JsonVal.int 3), ("position", JsonVal.str "QB")])])) :=
  ⟨get_rookies_invariant.1
      [("p1", [("years_exp", JsonVal.int 0), ("position", JsonVal.str "QB")]),
       ("p2", [("years_exp", JsonVal.int 3), ("position", JsonVal.str "QB")])]
      (projRookie "p1" [("years_exp", JsonVal.int 0), ("position", JsonVal.str "QB")])
      (List.mem_cons_self _ _),
   get_rookies_invariant.2 2024
      { status := 200,
        body := [("p1", [("years_exp", JsonVal.int 0), ("position", JsonVal.str "QB")]),
                 ("p2", [("years_exp", JsonVal.int 3), ("position", JsonVal.str "QB")])] }
      [] rfl⟩

/-- C2: when the HTTP response carries a client- or server-error status
(`400 ≤ status < 600`, e.g. 500), both pipelines raise `HTTPError` and
leave the file system exactly as it was: no file is created or
overwritten. -/
theorem http_error_leaves_fs_unchanged :
    ∀ (year : Int) (presp : Response PlayerBody) (tresp : Response TeamBody) (fs : FS),
      400 ≤ presp.status ∧ presp.status < 600 →
      400 ≤ tresp.status ∧ tresp.status < 600 →
      ((get_rookies_run year presp fs).result = .error { status := presp.status } ∧
        (get_rookies_run year presp fs).fs = fs) ∧
      ((get_team_offensive_stats_run year tresp fs).result = .error { status := tresp.status } ∧
        (get_team_offensive_stats_run year tresp fs).fs = fs) := by
  intro year presp tresp fs hp ht
  have hp2 := isErrorStatus_true hp.1 hp.2
  have ht2 := isErrorStatus_true ht.1 ht.2
  constructor
  · constructor <;> simp [get_rookies_run, hp2]
  · constructor <;> simp [get_team_offensive_stats_run, ht2]

/-- Witness for C2: status 500 on both pipelines, with a previously
existing rookie output file, which is left untouched. -/
theorem http_error_leaves_fs_unchanged_witness :
    ((get_rookies_run 2024 { status := 500, body := [] }
        [(rookiesPath, FileData.rookies [])]).result = .error { status := 500 } ∧
      (get_rookies_run 2024 { status := 500, body := [] }
        [(rookiesPath, FileData.rookies [])]).fs = [(rookiesPath, FileData.rookies [])]) ∧
    ((get_team_offensive_stats_run 2024 { status := 500, body := [] }
        [(rookiesPath, FileData.rookies [])]).result = .error { status := 500 } ∧
      (get_team_offensive_stats_run 2024 { status := 500, body := [] }
        [(rookiesPath, FileData.rookies [])]).fs = [(rookiesPath, FileData.rookies [])]) :=
  http_error_leaves_fs_unchanged 2024 { status := 500, body := [] }
    { status := 500, body := [] } [(rookiesPath, FileData.rookies [])]
    ⟨by decide, by decide⟩ ⟨by decide, by decide⟩

/-- C3: a `(team, stats)` entry of the team-stats response yields an
output record iff `stats` is a dict (non-dict entries are dropped, in
order, without error), and on the concrete input
`\x7b"KC": \x7b"offense_rank": 2\x7d, "BUF": "bye"\x7d` the output is exactly one
record with team `"KC"`, `offense_rank` 2 and every other projected field
null. -/
theorem team_stats_filter_and_example :
    (∀ (year : Int) (data : TeamBody),
      (teamRecords year data).map TeamRecord.team =
        (data.filter (fun e => e.2.isObj)).map Prod.fst)
    ∧ teamRecords 2024 [("KC", JsonVal.obj [("offense_rank", JsonVal.int 2)]),
        ("BUF", JsonVal.str "bye")] =
      [{ team := "KC", year := 2024, offense_rank := JsonVal.int 2,
         pass_yards_rank := JsonVal.null, pass_td_rank := JsonVal.null,
         rush_yards_rank := JsonVal.null, rush_td_rank := JsonVal.null,
         rec_yards_rank := JsonVal.null, rec_td_rank := JsonVal.null,
         team_td := JsonVal.null, redzone_rank := JsonVal.null,
         redzone_pct := JsonVal.null }] :=
  ⟨teamRecords_map_team, rfl⟩

/-- C4: `get_rookies` writes its output to the literal path
`data/raw/rookies_\x7byear\x7d.csv` — the placeholder is NOT substituted —
so the resulting file system is identical for any two year arguments, and
on success the file at that literal path holds the rookie rows. -/
theorem rookies_path_not_interpolated :
    ∀ (y1 y2 : Int) (resp : Response PlayerBody) (fs : FS),
      (get_rookies_run y1 resp fs).fs = (get_rookies_run y2 resp fs).fs
      ∧ (isErrorStatus resp.status = false →
          fsLookup (get_rookies_run y1 resp fs).fs "data/raw/rookies_\x7byear\x7d.csv" =
            some (FileData.rookies (rookieRecords resp.body))) := by
  intro y1 y2 resp fs
  constructor
  · cases h : isErrorStatus resp.status <;> simp [get_rookies_run, h]
  · intro h
    simp only [get_rookies_run, h, Bool.false_eq_true, if_false, ite_false]
    rw [show ("data/raw/rookies_\x7byear\x7d.csv" : String) = rookiesPath from rfl]
    exact fsLookup_fsWrite _ _ _

/-- Witness for C4 at two distinct years (2023, 2024) and a concrete
successful response. -/
theorem rookies_path_not_interpolated_witness :
    (get_rookies_run 2023 { status := 200, body := [] } []).fs =
      (get_rookies_run 2024 { status := 200, body := [] } []).fs
    ∧ fsLookup (get_rookies_run 2023 { status := 200, body := [] } []).fs
        "data/raw/rookies_\x7byear\x7d.csv" =
        some (FileData.rookies (rookieRecords [])) :=
  ⟨(rookies_path_not_interpolated 2023 2024 { status := 200, body := [] } []).1,
   (rookies_path_not_interpolated 2023 2024 { status := 200, body := [] } []).2 rfl⟩

/-- C5: when every entry of the player response has `years_exp == 0` and a
position in `{"QB", "RB", "WR", "TE"}`, the rookie output has exactly the
same length as the input mapping: nothing is dropped or duplicated. -/
theorem all_eligible_preserves_length :
    ∀ (data : PlayerBody),
      (∀ e ∈ data, pyEqZero (jget e.2 "years_exp") = true ∧
        posValid (jget e.2 "position") = true) →
      (rookieRecords data).length = data.length := by
  intro data h
  have hfilter : data.filter (fun e => rookiePred e.2) = data :=
    List.filter_eq_self.mpr (fun e he =>
      Bool.and_eq_true _ _ |>.mpr ⟨(h e he).1, (h e he).2⟩)
  unfold rookieRecords
  rw [hfilter, List.length_map]

/-- Witness for C5 on a two-entry all-eligible input. -/
theorem all_eligible_preserves_length_witness :
    (rookieRecords [("p1", [("years_exp", JsonVal.int 0), ("position", JsonVal.str "QB")]),
      ("p2", [("years_exp", JsonVal.int 0), ("position", JsonVal.str "TE")])]).length =
    ([("p1", [("years_exp", JsonVal.int 0), ("position", JsonVal.str "QB")]),
      ("p2", [("years_exp", JsonVal.int 0), ("position", JsonVal.str "TE")])] : PlayerBody).length :=
  all_eligible_preserves_length
    [("p1", [("years_exp", JsonVal.int 0), ("position", JsonVal.str "QB")]),
     ("p2", [("years_exp", JsonVal.int 0), ("position", JsonVal.str "TE")])]
    (by decide)

/-- C6: both pipelines emit the surviving entries in the iteration
(insertion) order of the source mapping: the output key sequence equals
the key sequence of the filtered input, and is in particular a sublist of
the full input key sequence — no sorting by any output field. -/
theorem outputs_in_source_order :
    (∀ (data : PlayerBody),
      (rookieRecords data).map RookieRecord.player_id =
        (data.filter (fun e => rookiePred e.2)).map Prod.fst ∧
      List.Sublist ((rookieRecords data).map RookieRecord.player_id)
        (data.map Prod.fst))
    ∧ (∀ (year : Int) (data : TeamBody),
        (teamRecords year data).map TeamRecord.team =
          (data.filter (fun e => e.2.isObj)).map Prod.fst ∧
        List.Sublist ((teamRecords year data).map TeamRecord.team)
          (data.map Prod.fst)) := by
  constructor
  · intro data
    refine ⟨rookieRecords_map_pid data, ?_⟩
    rw [rookieRecords_map_pid data]
    exact (List.filter_sublist data).map Prod.fst
  · intro year data
    refine ⟨teamRecords_map_team year data, ?_⟩
    rw [teamRecords_map_team year data]
    exact (List.filter_sublist data).map Prod.fst

/-- C7: the year argument of `get_rookies` does not interfere with either
the issued request URL (a fixed players endpoint) or the returned record
collection: two runs with different years on the same response and file
system issue the same request and return the same result. -/
theorem get_rookies_year_noninterference :
    ∀ (y1 y2 : Int) (resp : Response PlayerBody) (fs : FS),
      (get_rookies_run y1 resp fs).request = (get_rookies_run y2 resp fs).request ∧
      (get_rookies_run y1 resp fs).result = (get_rookies_run y2 resp fs).result := by
  intro y1 y2 resp fs
  cases h : isErrorStatus resp.status <;> simp [get_rookies_run, h]

/-- C8: projecting a player entry that passes the rookie filter never
fails: each absent optional field (`full_name`, `team`, `college`) yields
null in the output record, and the lookup itself has no error branch — it
always returns either null or a value actually stored in the entry. -/
theorem absent_optional_fields_are_null :
    ∀ (pid : String) (player : List (String × JsonVal)),
      rookiePred player = true →
      (("full_name" ∉ player.map Prod.fst →
          (projRookie pid player).full_name = JsonVal.null) ∧
       ("team" ∉ player.map Prod.fst →
          (projRookie pid player).team = JsonVal.null) ∧
       ("college" ∉ player.map Prod.fst →
          (projRookie pid player).college = JsonVal.null)) ∧
      (∀ k : String, jget player k = JsonVal.null ∨ (k, jget player k) ∈ player) := by
  intro pid player _
  refine ⟨⟨fun h => jget_of_not_mem player "full_name" h,
           fun h => jget_of_not_mem player "team" h,
           fun h => jget_of_not_mem player "college" h⟩,
          fun k => jget_total player k⟩

/-- Witness for C8: a filter-passing entry with only `years_exp` and
`position` present projects `full_name`, `team` and `college` to null. -/
theorem absent_optional_fields_are_null_witness :
    (projRookie "p1" [("years_exp", JsonVal.int 0), ("position", JsonVal.str "WR")]).full_name =
      JsonVal.null ∧
    (projRookie "p1" [("years_exp", JsonVal.int 0), ("position", JsonVal.str "WR")]).team =
      JsonVal.null ∧
    (projRookie "p1" [("years_exp", JsonVal.int 0), ("position", JsonVal.str "WR")]).college =
      JsonVal.null :=
  ⟨(absent_optional_fields_are_null "p1"
      [("years_exp", JsonVal.int 0), ("position", JsonVal.str "WR")] rfl).1.1 (by decide),
   (absent_optional_fields_are_null "p1"
      [("years_exp", JsonVal.int 0), ("position", JsonVal.str "WR")] rfl).1.2.1 (by decide),
   (absent_optional_fields_are_null "p1"
      [("years_exp", JsonVal.int 0), ("position", JsonVal.str "WR")] rfl).1.2.2 (by decide)⟩

/-- C9: every team offensive stats record carries the caller-supplied year
argument, regardless of anything in the API response body. -/
theorem team_stats_year_from_caller :
    ∀ (year : Int) (data : TeamBody) (r : TeamRecord),
      r ∈ teamRecords year data → r.year = year := by
  intro year data r h
  rcases of_mem_teamRecords h with ⟨e, _, _, rfl⟩
  rfl

/-- Witness for C9: a response whose stats object even contains a
conflicting `year`-like field still yields the caller's year. -/
theorem team_stats_year_from_caller_witness :
    (projTeam 2024 "KC" [("year", JsonVal.int 1999)]).year = 2024 :=
  team_stats_year_from_caller 2024 [("KC", JsonVal.obj [("year", JsonVal.int 1999)])]
    (projTeam 2024 "KC" [("year", JsonVal.int 1999)]) (List.mem_cons_self _ _)

/-- C10 counterexample: the claim says only entries whose `years_exp` is
exactly the integer 0 can appear in the output, but Python's `== 0` also
accepts the boolean `False` (`bool` is a subclass of `int`): the input
`\x7b"p1": \x7b"years_exp": false, "position": "QB"\x7d\x7d` produces a record
whose `years_exp` is `false`, not the integer 0. -/
theorem rookie_filter_int_zero_counterexample :
    rookieRecords [("p1", [("years_exp", JsonVal.bool false), ("position", JsonVal.str "QB")])] =
      [{ player_id := "p1", full_name := JsonVal.null, position := JsonVal.str "QB",
         team := JsonVal.null, college := JsonVal.null, years_exp := JsonVal.bool false }] ∧
    JsonVal.bool false ≠ JsonVal.int 0 :=
  ⟨rfl, fun h => JsonVal.noConfusion h⟩

/-- C10 amended: entries whose `years_exp` is absent or null (and entries
whose `position` is absent or null) are excluded by the rookie filter, and
every output record's `years_exp` compares equal to 0 under Python
equality — it is the integer 0, the float 0.0, or the boolean false. -/
theorem rookie_filter_null_excluded :
    (∀ (player : List (String × JsonVal)),
      (jget player "years_exp" = JsonVal.null → rookiePred player = false) ∧
      (jget player "position" = JsonVal.null → rookiePred player = false))
    ∧ (∀ (data : PlayerBody) (r : RookieRecord), r ∈ rookieRecords data →
        (r.years_exp = JsonVal.int 0 ∨ r.years_exp = JsonVal.float 0 ∨
          r.years_exp = JsonVal.bool false)) := by
  constructor
  · intro player
    constructor
    · intro h
      simp [rookiePred, h, pyEqZero]
    · intro h
      simp [rookiePred, h, posValid]
  · intro data r hr
    rcases of_mem_rookieRecords hr with ⟨e, _, hp, rfl⟩
    exact pyEqZero_cases _ (Bool.and_eq_true _ _ |>.mp hp).1

/-- Witness for C10 (amended): an entry with null `years_exp` is rejected
by the filter, and the record produced from an integer-0 rookie has
`years_exp` in the allowed set. -/
theorem rookie_filter_null_excluded_witness :
    rookiePred [("years_exp", JsonVal.null), ("position", JsonVal.str "QB")] = false ∧
    ((projRookie "p9" [("years_exp", JsonVal.int 0), ("position", JsonVal.str "RB")]).years_exp =
        JsonVal.int 0 ∨
      (projRookie "p9" [("years_exp", JsonVal.int 0), ("position", JsonVal.str "RB")]).years_exp =
        JsonVal.float 0 ∨
      (projRookie "p9" [("years_exp", JsonVal.int 0), ("position", JsonVal.str "RB")]).years_exp =
        JsonVal.bool false) :=
  ⟨(rookie_filter_null_excluded.1
      [("years_exp", JsonVal.null), ("position", JsonVal.str "QB")]).1 rfl,
   rookie_filter_null_excluded.2
      [("p9", [("years_exp", JsonVal.int 0), ("position", JsonVal.str "RB")])]
      (projRookie "p9" [("years_exp", JsonVal.int 0), ("position", JsonVal.str "RB")])
      (List.mem_cons_self _ _)⟩

end PlayerData
